import Mathlib

/-!
Verification development for the 8080-class space-invaders emulator core.

Shallow embedding conventions, used uniformly below:
* Rust machine integers (`u8`, `u16`) become `Nat` with explicit wrapping:
  `% 256` / `% 65536` wherever the Rust operation wraps or truncates.
* Shifts and masks used for byte packing are rendered arithmetically:
  `x >> 8` becomes `x / 256`, `x & 0xff` becomes `x % 256`, and `|` of
  byte-disjoint operands becomes `+`.  Genuinely bitwise operations
  (AND/OR/XOR of register values, flag-bit masking) keep `&&&`/`|||`/`^^^`.
* Fallible code (slice indexing, `panic!`, `unimplemented!`, the decoder's
  `?` propagation) returns `Except Failure _`; the `Failure` value records
  which failure site fired.
-/

/-- Number of one bits of a `u8` value (Rust `u8::count_ones`). -/
def countOnes8 (value : Nat) : Nat :=
  ((List.range 8).map (fun i => value / 2 ^ i % 2)).sum

/-- The four live condition bits of the flags byte (src/flag.rs). -/
inductive CondFlag where
  | Carry
  | Parity
  | Zero
  | Sign
deriving DecidableEq

/-- Numeric value of each flag bit: carry=bit0, parity=bit2, zero=bit6, sign=bit7. -/
def CondFlag.toNat : CondFlag → Nat
  | .Carry  => 1
  | .Parity => 4
  | .Zero   => 64
  | .Sign   => 128

/-- Accumulator plus flags byte (src/program_state_word.rs). -/
structure ProgramStateWord where
  flags : Nat
  a     : Nat
deriving DecidableEq

/-- `ProgramStateWord::new`: flags byte starts as `0b00000010`. -/
def ProgramStateWord.new : ProgramStateWord := ⟨0b00000010, 0⟩

/-- `ProgramStateWord::get`: the 16-bit packed view `(flags << 8) | a`. -/
def ProgramStateWord.get (p : ProgramStateWord) : Nat :=
  p.flags * 256 + p.a

/-- `ProgramStateWord::set`: unpack a 16-bit value into flags and accumulator. -/
def ProgramStateWord.set (v : Nat) : ProgramStateWord :=
  ⟨v / 256 % 256, v % 256⟩

/-- `ProgramStateWord::set_flag`: decide the flag condition from the supplied
value and then set or clear exactly that flag's bit (`flags |= bit` /
`flags &= !bit`). -/
def ProgramStateWord.setFlag (p : ProgramStateWord) (flag : CondFlag) (value : Nat) :
    ProgramStateWord :=
  let shouldSet : Bool :=
    match flag with
    | .Carry  => value != 0
    | .Parity => countOnes8 value % 2 == 0
    | .Zero   => value == 0
    | .Sign   => value &&& 0x80 == 0x80
  if shouldSet then { p with flags := p.flags ||| flag.toNat }
  else { p with flags := p.flags &&& (255 ^^^ flag.toNat) }

def ProgramStateWord.setCarry (p : ProgramStateWord) (value : Nat) : ProgramStateWord :=
  p.setFlag .Carry value

def ProgramStateWord.setParity (p : ProgramStateWord) (value : Nat) : ProgramStateWord :=
  p.setFlag .Parity value

def ProgramStateWord.setZero (p : ProgramStateWord) (value : Nat) : ProgramStateWord :=
  p.setFlag .Zero value

def ProgramStateWord.setSign (p : ProgramStateWord) (value : Nat) : ProgramStateWord :=
  p.setFlag .Sign value

def ProgramStateWord.isFlagSet (p : ProgramStateWord) (flag : CondFlag) : Bool :=
  p.flags &&& flag.toNat != 0

def ProgramStateWord.isCarrySet (p : ProgramStateWord) : Bool := p.isFlagSet .Carry

def ProgramStateWord.isParitySet (p : ProgramStateWord) : Bool := p.isFlagSet .Parity

def ProgramStateWord.isZeroSet (p : ProgramStateWord) : Bool := p.isFlagSet .Zero

def ProgramStateWord.isSignSet (p : ProgramStateWord) : Bool := p.isFlagSet .Sign

/-- `ProgramStateWord::get_carry`: the carry bit as a 0/1 value. -/
def ProgramStateWord.getCarry (p : ProgramStateWord) : Nat :=
  if p.isCarrySet then 1 else 0

/-- Two 8-bit cells with a big-endian 16-bit view (src/register_pair.rs). -/
structure RegisterPair where
  rh : Nat
  rl : Nat
deriving DecidableEq

def RegisterPair.new : RegisterPair := ⟨0, 0⟩

/-- `RegisterPair::get`: `(rh << 8) | rl`. -/
def RegisterPair.get (p : RegisterPair) : Nat :=
  p.rh * 256 + p.rl

/-- `RegisterPair::set`: `rh = (v >> 8) as u8`, `rl = (v & 0xff) as u8`. -/
def RegisterPair.set (v : Nat) : RegisterPair :=
  ⟨v / 256 % 256, v % 256⟩

/-- Every failure site of the core.  `indexPanic`, `invalidOpcode`,
`invalidReadPort`, `invalidWritePort`, `memOutOfRange`, `unreachableCode`
and `daaUnimplemented` all correspond to Rust panics (process aborts);
none of them is a `Result::Err` returned from `run` — the decoder's `?`
operator sits after a slice index that already panics on short input, so
the returned-error path of `decode` is dead code. -/
inductive Failure where
  | indexPanic
  | invalidOpcode (op : Nat)
  | invalidReadPort (port : Nat)
  | invalidWritePort (port : Nat)
  | memOutOfRange
  | unreachableCode
  | daaUnimplemented
deriving DecidableEq

/-- Input latches, output latches and the 16-bit shift peripheral
(src/io_ports.rs). -/
structure IOPorts where
  input0         : Nat
  input1         : Nat
  input2         : Nat
  shift_amount   : Nat
  sound1         : Nat
  sound2         : Nat
  watchdog       : Nat
  shift_register : Nat
deriving DecidableEq

/-- `IOPorts::new`: `input0 = 0b00001110`, everything else zero. -/
def IOPorts.new : IOPorts := ⟨0b00001110, 0, 0, 0, 0, 0, 0, 0⟩

/-- `IOPorts::read`: ports 0/1/2 return the latched input byte; port 3
returns `(shift_register >> (8 - shift_amount)) as u8`; any other port is
`panic!("invalid read port")`. -/
def IOPorts.read (p : IOPorts) (port : Nat) : Except Failure Nat :=
  match port with
  | 0 => .ok p.input0
  | 1 => .ok p.input1
  | 2 => .ok p.input2
  | 3 => .ok (p.shift_register / 2 ^ (8 - p.shift_amount) % 256)
  | _ => .error (.invalidReadPort port)

/-- `IOPorts::write`: port 2 stores the low 3 bits as `shift_amount`;
port 4 does `shift_register = (shift_register >> 8) | (value << 8)`
(the two operands are byte-disjoint, rendered as `+`); ports 3/5/6 are the
sound and watchdog latches; any other port is `panic!("invalid write port")`. -/
def IOPorts.write (p : IOPorts) (port value : Nat) : Except Failure IOPorts :=
  match port with
  | 2 => .ok { p with shift_amount := value % 8 }
  | 3 => .ok { p with sound1 := value }
  | 4 => .ok { p with shift_register := p.shift_register / 256 + value % 256 * 256 }
  | 5 => .ok { p with sound2 := value }
  | 6 => .ok { p with watchdog := value }
  | _ => .error (.invalidWritePort port)

/-- One periodic interrupt source (src/interrupt_timer.rs). -/
structure InterruptTimer where
  number    : Nat
  cycles    : Nat
  interrupt : Bool
deriving DecidableEq

def InterruptTimer.new (number cycles : Nat) : InterruptTimer :=
  ⟨number, cycles, false⟩

/-- `AddAssign<u16> for InterruptTimer`: `cycles += other` (u16, wrapping in
release builds, hence `% 65536`); if the sum reached 33334, subtract 33334
and mark the source's own interrupt flag. -/
def InterruptTimer.add (t : InterruptTimer) (other : Nat) : InterruptTimer :=
  let c := (t.cycles + other) % 65536
  if 33334 ≤ c then { t with cycles := c - 33334, interrupt := true }
  else { t with cycles := c }

/-- The pair of periodic sources plus the latched aggregate state
(src/interrupt_timer.rs). -/
structure InterruptTimers where
  number    : Nat
  interrupt : Bool
  timer1    : InterruptTimer
  timer2    : InterruptTimer
deriving DecidableEq

/-- `InterruptTimers::new`: source 1 preloaded to 16667, source 2 at 0. -/
def InterruptTimers.new : InterruptTimers :=
  ⟨0, false, InterruptTimer.new 1 16667, InterruptTimer.new 2 0⟩

/-- `AddAssign<u16> for InterruptTimers`: advance each source in order; when
a source's own flag is set, latch the aggregate `interrupt`/`number` and
clear the source flag. -/
def InterruptTimers.add (ts : InterruptTimers) (other : Nat) : InterruptTimers :=
  let t1 := ts.timer1.add other
  let ts1 :=
    if t1.interrupt then
      { ts with interrupt := true, number := t1.number,
                timer1 := { t1 with interrupt := false } }
    else { ts with timer1 := t1 }
  let t2 := ts1.timer2.add other
  if t2.interrupt then
    { ts1 with interrupt := true, number := t2.number,
               timer2 := { t2 with interrupt := false } }
  else { ts1 with timer2 := t2 }

/-- Capacity of the memory image: `vec![0; 0x5000]` (src/memory.rs). -/
def CAP : Nat := 0x5000

/-- The memory image contents, as a function from index to byte.
`Memory::new` is the all-zero image. -/
def Memory := Nat → Nat

/-- `Memory::read8` via `Memory::read`: slice indexing
`memory[address..address+1]` panics unless the range lies inside the
0x5000-byte image; there is no address reduction modulo the capacity. -/
def memRead8 (m : Memory) (address : Nat) : Except Failure Nat :=
  if address + 1 ≤ CAP then .ok (m address) else .error .memOutOfRange

/-- `Memory::read16`: two bytes, little-endian. -/
def memRead16 (m : Memory) (address : Nat) : Except Failure Nat :=
  if address + 2 ≤ CAP then .ok (m address + 256 * m (address + 1))
  else .error .memOutOfRange

/-- `Memory::write8` via `Memory::write`. -/
def memWrite8 (m : Memory) (address v : Nat) : Except Failure Memory :=
  if address + 1 ≤ CAP then
    .ok (fun i => if i = address then v % 256 else m i)
  else .error .memOutOfRange

/-- `Memory::write16`: stores `v` little-endian at `address`, `address+1`. -/
def memWrite16 (m : Memory) (address v : Nat) : Except Failure Memory :=
  if address + 2 ≤ CAP then
    .ok (fun i =>
      if i = address then v % 256
      else if i = address + 1 then v / 256 % 256
      else m i)
  else .error .memOutOfRange

/-- `Memory::new` followed by `Memory::write(0, rom)` (the `load_rom` image):
ROM bytes at the front, zeros elsewhere. -/
def memOfRom (rom : List Nat) : Memory :=
  fun i => rom.getD i 0

/-- Modelled from the spec: src/instruction.rs is declared in main.rs but is
absent from the sources.  The spec's instruction-descriptor section and the
constructors used by decoder.rs and emulator.rs determine the variants: a
tagged union over the 8080 mnemonic set, each variant carrying only the
operands it needs (3-bit register code, register-pair code, immediate byte,
or immediate word). -/
inductive Instruction where
  | Stc | Cmc | Cma | Daa | Nop
  | Inr (reg : Nat)
  | Dcr (reg : Nat)
  | Mov (dst src : Nat)
  | Stax (rp : Nat)
  | Ldax (rp : Nat)
  | Add (reg : Nat)
  | Adc (reg : Nat)
  | Sub (reg : Nat)
  | Sbb (reg : Nat)
  | Ana (reg : Nat)
  | Xra (reg : Nat)
  | Ora (reg : Nat)
  | Cmp (reg : Nat)
  | Rlc | Rrc | Ral | Rar
  | Push (rp : Nat)
  | Pop (rp : Nat)
  | Dad (rp : Nat)
  | Inx (rp : Nat)
  | Dcx (rp : Nat)
  | Xchg | Xthl | Sphl
  | Lxi (rp data : Nat)
  | Mvi (reg data : Nat)
  | Adi (data : Nat)
  | Aci (data : Nat)
  | Sui (data : Nat)
  | Sbi (data : Nat)
  | Ani (data : Nat)
  | Xri (data : Nat)
  | Ori (data : Nat)
  | Cpi (data : Nat)
  | Sta (exp : Nat)
  | Lda (exp : Nat)
  | Shld (exp : Nat)
  | Lhld (exp : Nat)
  | Pchl
  | Jmp (exp : Nat)
  | Jc (exp : Nat)
  | Jnc (exp : Nat)
  | Jz (exp : Nat)
  | Jnz (exp : Nat)
  | Jm (exp : Nat)
  | Jp (exp : Nat)
  | Jpe (exp : Nat)
  | Jpo (exp : Nat)
  | Call (sub : Nat)
  | Cc (sub : Nat)
  | Cnc (sub : Nat)
  | Cz (sub : Nat)
  | Cnz (sub : Nat)
  | Cm (sub : Nat)
  | Cp (sub : Nat)
  | Cpe (sub : Nat)
  | Cpo (sub : Nat)
  | Ret | Rc | Rnc | Rz | Rnz | Rm | Rp | Rpe | Rpo
  | Rst (exp : Nat)
  | Ei | Di
  | In (exp : Nat)
  | Out (exp : Nat)
  | Hlt

/-- Result of `decoder::decode` (src/decoder.rs).  Every `fatal` is a panic:
an undefined opcode hits `panic!("invalid opcode")`, and a buffer shorter
than the instruction needs panics at the `instruction[1]` / `instruction[1..3]`
index before the `?` operator could ever return an error. -/
inductive DecodeResult where
  | ok (i : Instruction)
  | fatal (f : Failure)

/-- `decoder::decode`: opcode byte to typed descriptor.  The Rust `match`
arms are rendered as a chain of disjoint tests in the same order; shifts and
masks on the opcode are rendered as `/` and `%` by powers of two. -/
def decode (bytes : List Nat) : DecodeResult :=
  match bytes with
  | [] => .fatal .indexPanic
  | op :: tail =>
    if op = 0x00 then .ok .Nop
    else if op = 0x01 ∨ op = 0x11 ∨ op = 0x21 ∨ op = 0x31 then
      match tail with
      | b1 :: b2 :: _ => .ok (.Lxi (op / 16 % 4) (b1 + 256 * b2))
      | _ => .fatal .indexPanic
    else if op = 0x02 ∨ op = 0x12 then .ok (.Stax (op / 16 % 2))
    else if op = 0x03 ∨ op = 0x13 ∨ op = 0x23 ∨ op = 0x33 then .ok (.Inx (op / 16 % 4))
    else if op = 0x04 ∨ op = 0x0c ∨ op = 0x14 ∨ op = 0x1c ∨
            op = 0x24 ∨ op = 0x2c ∨ op = 0x34 ∨ op = 0x3c then
      .ok (.Inr (op / 8 % 8))
    else if op = 0x05 ∨ op = 0x0d ∨ op = 0x15 ∨ op = 0x1d ∨
            op = 0x25 ∨ op = 0x2d ∨ op = 0x35 ∨ op = 0x3d then
      .ok (.Dcr (op / 8 % 8))
    else if op = 0x06 ∨ op = 0x0e ∨ op = 0x16 ∨ op = 0x1e ∨
            op = 0x26 ∨ op = 0x2e ∨ op = 0x36 ∨ op = 0x3e then
      match tail with
      | b1 :: _ => .ok (.Mvi (op / 8 % 8) b1)
      | _ => .fatal .indexPanic
    else if op = 0x07 ∨ op = 0x0f ∨ op = 0x17 ∨ op = 0x1f then
      match op / 8 % 4 with
      | 0 => .ok .Rlc
      | 1 => .ok .Rrc
      | 2 => .ok .Ral
      | _ => .ok .Rar
    else if op = 0x09 ∨ op = 0x19 ∨ op = 0x29 ∨ op = 0x39 then .ok (.Dad (op / 16 % 4))
    else if op = 0x0a ∨ op = 0x1a then .ok (.Ldax (op / 16 % 2))
    else if op = 0x0b ∨ op = 0x1b ∨ op = 0x2b ∨ op = 0x3b then .ok (.Dcx (op / 16 % 4))
    else if op = 0x22 ∨ op = 0x2a ∨ op = 0x32 ∨ op = 0x3a then
      match tail with
      | b1 :: b2 :: _ =>
        let exp := b1 + 256 * b2
        match op / 8 % 4 with
        | 0 => .ok (.Shld exp)
        | 1 => .ok (.Lhld exp)
        | 2 => .ok (.Sta exp)
        | _ => .ok (.Lda exp)
      | _ => .fatal .indexPanic
    else if op = 0x27 then .ok .Daa
    else if op = 0x2f then .ok .Cma
    else if op = 0x37 ∨ op = 0x3f then
      match op / 8 % 2 with
      | 0 => .ok .Stc
      | _ => .ok .Cmc
    else if (0x40 ≤ op ∧ op ≤ 0x75) ∨ (0x77 ≤ op ∧ op ≤ 0x7f) then
      .ok (.Mov (op / 8 % 8) (op % 8))
    else if op = 0x76 then .ok .Hlt
    else if 0x80 ≤ op ∧ op ≤ 0xbf then
      let reg := op % 8
      match op / 8 % 8 with
      | 0 => .ok (.Add reg)
      | 1 => .ok (.Adc reg)
      | 2 => .ok (.Sub reg)
      | 3 => .ok (.Sbb reg)
      | 4 => .ok (.Ana reg)
      | 5 => .ok (.Xra reg)
      | 6 => .ok (.Ora reg)
      | _ => .ok (.Cmp reg)
    else if op = 0xc0 ∨ op = 0xc8 ∨ op = 0xc9 ∨ op = 0xd0 ∨ op = 0xd8 ∨
            op = 0xe0 ∨ op = 0xe8 ∨ op = 0xf0 ∨ op = 0xf8 then
      match op / 8 % 8 with
      | 0 => .ok .Rnz
      | 1 => if op % 2 = 0 then .ok .Rz else .ok .Ret
      | 2 => .ok .Rnc
      | 3 => .ok .Rc
      | 4 => .ok .Rpo
      | 5 => .ok .Rpe
      | 6 => .ok .Rp
      | _ => .ok .Rm
    else if op = 0xc1 ∨ op = 0xd1 ∨ op = 0xe1 ∨ op = 0xf1 then
      let rp := op / 16 % 4
      .ok (.Pop (if rp = 3 then rp + 1 else rp))
    else if op = 0xc2 ∨ op = 0xc3 ∨ op = 0xca ∨ op = 0xd2 ∨ op = 0xda ∨
            op = 0xe2 ∨ op = 0xea ∨ op = 0xf2 ∨ op = 0xfa then
      match tail with
      | b1 :: b2 :: _ =>
        let exp := b1 + 256 * b2
        match op / 8 % 8 with
        | 0 => if op % 2 = 0 then .ok (.Jnz exp) else .ok (.Jmp exp)
        | 1 => .ok (.Jz exp)
        | 2 => .ok (.Jnc exp)
        | 3 => .ok (.Jc exp)
        | 4 => .ok (.Jpo exp)
        | 5 => .ok (.Jpe exp)
        | 6 => .ok (.Jp exp)
        | _ => .ok (.Jm exp)
      | _ => .fatal .indexPanic
    else if op = 0xc4 ∨ op = 0xcc ∨ op = 0xcd ∨ op = 0xd4 ∨ op = 0xdc ∨
            op = 0xe4 ∨ op = 0xec ∨ op = 0xf4 ∨ op = 0xfc then
      match tail with
      | b1 :: b2 :: _ =>
        let sub := b1 + 256 * b2
        match op / 8 % 8 with
        | 0 => .ok (.Cnz sub)
        | 1 => if op % 2 = 0 then .ok (.Cz sub) else .ok (.Call sub)
        | 2 => .ok (.Cnc sub)
        | 3 => .ok (.Cc sub)
        | 4 => .ok (.Cpo sub)
        | 5 => .ok (.Cpe sub)
        | 6 => .ok (.Cp sub)
        | _ => .ok (.Cm sub)
      | _ => .fatal .indexPanic
    else if op = 0xc5 ∨ op = 0xd5 ∨ op = 0xe5 ∨ op = 0xf5 then
      let rp := op / 16 % 4
      .ok (.Push (if rp = 3 then rp + 1 else rp))
    else if op = 0xc6 ∨ op = 0xce ∨ op = 0xd6 ∨ op = 0xde ∨ op = 0xe6 ∨
            op = 0xee ∨ op = 0xf6 ∨ op = 0xfe then
      match tail with
      | b1 :: _ =>
        match op / 8 % 8 with
        | 0 => .ok (.Adi b1)
        | 1 => .ok (.Aci b1)
        | 2 => .ok (.Sui b1)
        | 3 => .ok (.Sbi b1)
        | 4 => .ok (.Ani b1)
        | 5 => .ok (.Xri b1)
        | 6 => .ok (.Ori b1)
        | _ => .ok (.Cpi b1)
      | _ => .fatal .indexPanic
    else if op = 0xc7 ∨ op = 0xcf ∨ op = 0xd7 ∨ op = 0xdf ∨ op = 0xe7 ∨
            op = 0xef ∨ op = 0xf7 ∨ op = 0xff then
      .ok (.Rst (op / 8 % 8))
    else if op = 0xd3 ∨ op = 0xdb then
      match tail with
      | b1 :: _ => if op / 8 % 2 = 0 then .ok (.Out b1) else .ok (.In b1)
      | _ => .fatal .indexPanic
    else if op = 0xe3 then .ok .Xthl
    else if op = 0xe9 then .ok .Pchl
    else if op = 0xeb then .ok .Xchg
    else if op = 0xf3 ∨ op = 0xfb then
      if op / 8 % 2 = 0 then .ok .Di else .ok .Ei
    else if op = 0xf9 then .ok .Sphl
    else .fatal (.invalidOpcode op)

/-- The aggregate machine state owned by `Emulator` (src/emulator.rs,
src/cpu_state.rs).  `cycles` instruments the executor: it accumulates every
cycle delta reported to the interrupt scheduler via `interrupt_timers += d`,
so "total cycles reported to the scheduler" is observable. -/
structure EmuState where
  bc     : RegisterPair
  de     : RegisterPair
  hl     : RegisterPair
  psw    : ProgramStateWord
  pc     : Nat
  sp     : Nat
  inte   : Bool
  mem    : Memory
  ports  : IOPorts
  timers : InterruptTimers
  cycles : Nat

/-- `Emulator::new`: fresh CPU state, zeroed memory, fresh ports and timers. -/
def initState : EmuState :=
  { bc := RegisterPair.new, de := RegisterPair.new, hl := RegisterPair.new
    psw := ProgramStateWord.new, pc := 0, sp := 0, inte := false
    mem := memOfRom [], ports := IOPorts.new, timers := InterruptTimers.new
    cycles := 0 }

/-- Report a cycle delta: `self.interrupt_timers += d`, plus the ghost sum. -/
def tick (s : EmuState) (d : Nat) : EmuState :=
  { s with timers := s.timers.add d, cycles := s.cycles + d }

/-- `Emulator::get_register`: 3-bit code to register read; code `0b110` (M)
reads memory at HL; codes above 7 are `unreachable!`. -/
def getRegister (s : EmuState) (reg : Nat) : Except Failure Nat :=
  match reg with
  | 0 => .ok s.bc.rh
  | 1 => .ok s.bc.rl
  | 2 => .ok s.de.rh
  | 3 => .ok s.de.rl
  | 4 => .ok s.hl.rh
  | 5 => .ok s.hl.rl
  | 6 => memRead8 s.mem s.hl.get
  | 7 => .ok s.psw.a
  | _ => .error .unreachableCode

/-- `Emulator::set_register`: 3-bit code to register write; code `0b110` (M)
writes memory at HL. -/
def setRegister (s : EmuState) (reg v : Nat) : Except Failure EmuState :=
  match reg with
  | 0 => .ok { s with bc := { s.bc with rh := v } }
  | 1 => .ok { s with bc := { s.bc with rl := v } }
  | 2 => .ok { s with de := { s.de with rh := v } }
  | 3 => .ok { s with de := { s.de with rl := v } }
  | 4 => .ok { s with hl := { s.hl with rh := v } }
  | 5 => .ok { s with hl := { s.hl with rl := v } }
  | 6 =>
    match memWrite8 s.mem s.hl.get v with
    | .ok m => .ok { s with mem := m }
    | .error f => .error f
  | 7 => .ok { s with psw := { s.psw with a := v } }
  | _ => .error .unreachableCode

/-- `Emulator::get_register_pair`: codes 0..3 are BC, DE, HL, SP; code 4 is
the PSW packed view. -/
def getRegisterPair (s : EmuState) (rp : Nat) : Except Failure Nat :=
  match rp with
  | 0 => .ok s.bc.get
  | 1 => .ok s.de.get
  | 2 => .ok s.hl.get
  | 3 => .ok s.sp
  | 4 => .ok s.psw.get
  | _ => .error .unreachableCode

/-- `Emulator::set_register_pair`. -/
def setRegisterPair (s : EmuState) (rp v : Nat) : Except Failure EmuState :=
  match rp with
  | 0 => .ok { s with bc := RegisterPair.set v }
  | 1 => .ok { s with de := RegisterPair.set v }
  | 2 => .ok { s with hl := RegisterPair.set v }
  | 3 => .ok { s with sp := v }
  | 4 => .ok { s with psw := ProgramStateWord.set v }
  | _ => .error .unreachableCode

/-- The interrupt poll at the top of each `run` iteration (emulator.rs lines
97-105): when the scheduler's pending flag is set and the enable latch is
set, the fetched opcode byte is overwritten with `0b11000111 | (number << 3)`
and the latch is cleared; in either case the pending flag is cleared. -/
def interruptCheck (s : EmuState) (opcode : Nat) : Nat × EmuState :=
  if s.timers.interrupt then
    if s.inte then
      (0b11000111 ||| (s.timers.number <<< 3),
       { s with inte := false, timers := { s.timers with interrupt := false } })
    else
      (opcode, { s with timers := { s.timers with interrupt := false } })
  else (opcode, s)

/-- Outcome of executing one decoded instruction inside the `run` loop:
continue looping, return normally (HLT), or die on a panic site. -/
inductive StepResult where
  | next (s : EmuState)
  | halted (s : EmuState)
  | fatal (f : Failure)

/-- Semantic action of each instruction: the `match decoded_instruction`
body of `Emulator::run` (src/emulator.rs lines 110-930), one arm per
variant, preserving each arm's order of effects and its cycle report. -/
def execInstr (s : EmuState) (instr : Instruction) : StepResult :=
  match instr with
  | .Stc =>
    .next (tick { s with psw := s.psw.setCarry 1, pc := (s.pc + 1) % 65536 } 4)
  | .Cmc =>
    -- `!self.cpu_state.psw.get_carry()` is a bitwise u8 NOT of the 0/1 value
    .next (tick { s with psw := s.psw.setCarry (255 ^^^ s.psw.getCarry),
                         pc := (s.pc + 1) % 65536 } 4)
  | .Inr reg =>
    match getRegister s reg with
    | .error f => .fatal f
    | .ok r =>
      let register := (r + 1) % 256
      match setRegister s reg register with
      | .error f => .fatal f
      | .ok s1 =>
        let s2 := { s1 with
          psw := ((s1.psw.setParity register).setZero register).setSign register,
          pc := (s1.pc + 1) % 65536 }
        .next (tick s2 (if reg ≠ 6 then 5 else 10))
  | .Dcr reg =>
    match getRegister s reg with
    | .error f => .fatal f
    | .ok r =>
      let register := (r + 255) % 256
      match setRegister s reg register with
      | .error f => .fatal f
      | .ok s1 =>
        let s2 := { s1 with
          psw := ((s1.psw.setParity register).setZero register).setSign register,
          pc := (s1.pc + 1) % 65536 }
        .next (tick s2 (if reg ≠ 6 then 5 else 10))
  | .Cma =>
    .next (tick { s with psw := { s.psw with a := s.psw.a ^^^ 255 },
                         pc := (s.pc + 1) % 65536 } 4)
  | .Daa => .fatal .daaUnimplemented
  | .Nop => .next (tick { s with pc := (s.pc + 1) % 65536 } 4)
  | .Mov dst src =>
    match getRegister s src with
    | .error f => .fatal f
    | .ok register =>
      match setRegister s dst register with
      | .error f => .fatal f
      | .ok s1 =>
        .next (tick { s1 with pc := (s1.pc + 1) % 65536 }
          (if dst ≠ 6 ∧ src ≠ 6 then 5 else 7))
  | .Stax rp =>
    match getRegisterPair s rp with
    | .error f => .fatal f
    | .ok register_pair =>
      match memWrite8 s.mem register_pair s.psw.a with
      | .error f => .fatal f
      | .ok m => .next (tick { s with mem := m, pc := (s.pc + 1) % 65536 } 7)
  | .Ldax rp =>
    match getRegisterPair s rp with
    | .error f => .fatal f
    | .ok register_pair =>
      match memRead8 s.mem register_pair with
      | .error f => .fatal f
      | .ok v =>
        .next (tick { s with psw := { s.psw with a := v },
                             pc := (s.pc + 1) % 65536 } 7)
  | .Add reg =>
    match getRegister s reg with
    | .error f => .fatal f
    | .ok r =>
      let sum := s.psw.a + r
      let acc := sum % 256
      let psw1 := { s.psw with a := acc }
      let psw2 := (((psw1.setCarry (if 256 ≤ sum then 1 else 0)).setParity
        acc).setZero acc).setSign acc
      .next (tick { s with psw := psw2, pc := (s.pc + 1) % 65536 }
        (if reg ≠ 6 then 4 else 7))
  | .Adc reg =>
    match getRegister s reg with
    | .error f => .fatal f
    | .ok r =>
      let sum := s.psw.a + r + (if s.psw.isCarrySet then 1 else 0)
      let acc := sum % 256
      let psw1 := { s.psw with a := acc }
      let psw2 := (((psw1.setCarry (if 256 ≤ sum then 1 else 0)).setParity
        acc).setZero acc).setSign acc
      .next (tick { s with psw := psw2, pc := (s.pc + 1) % 65536 }
        (if reg ≠ 6 then 4 else 7))
  | .Sub reg =>
    match getRegister s reg with
    | .error f => .fatal f
    | .ok r =>
      let acc := (s.psw.a + 256 - r) % 256
      let psw1 := { s.psw with a := acc }
      let psw2 := (((psw1.setCarry (if s.psw.a < r then 1 else 0)).setParity
        acc).setZero acc).setSign acc
      .next (tick { s with psw := psw2, pc := (s.pc + 1) % 65536 }
        (if reg ≠ 6 then 4 else 7))
  | .Sbb reg =>
    match getRegister s reg with
    | .error f => .fatal f
    | .ok r =>
      let borrow := r + (if s.psw.isCarrySet then 1 else 0)
      let acc := (s.psw.a + 512 - borrow) % 256
      let psw1 := { s.psw with a := acc }
      let psw2 := (((psw1.setCarry (if s.psw.a < borrow then 1 else 0)).setParity
        acc).setZero acc).setSign acc
      .next (tick { s with psw := psw2, pc := (s.pc + 1) % 65536 }
        (if reg ≠ 6 then 4 else 7))
  | .Ana reg =>
    match getRegister s reg with
    | .error f => .fatal f
    | .ok r =>
      let acc := s.psw.a &&& r
      let psw2 := ((({ s.psw with a := acc }).setCarry 0).setParity
        acc).setZero acc |>.setSign acc
      .next (tick { s with psw := psw2, pc := (s.pc + 1) % 65536 }
        (if reg ≠ 6 then 4 else 7))
  | .Xra reg =>
    match getRegister s reg with
    | .error f => .fatal f
    | .ok r =>
      let acc := s.psw.a ^^^ r
      let psw2 := ((({ s.psw with a := acc }).setCarry 0).setParity
        acc).setZero acc |>.setSign acc
      .next (tick { s with psw := psw2, pc := (s.pc + 1) % 65536 }
        (if reg ≠ 6 then 4 else 7))
  | .Ora reg =>
    match getRegister s reg with
    | .error f => .fatal f
    | .ok r =>
      let acc := s.psw.a ||| r
      let psw2 := ((({ s.psw with a := acc }).setCarry 0).setParity
        acc).setZero acc |>.setSign acc
      .next (tick { s with psw := psw2, pc := (s.pc + 1) % 65536 }
        (if reg ≠ 6 then 4 else 7))
  | .Cmp reg =>
    match getRegister s reg with
    | .error f => .fatal f
    | .ok r =>
      let acc := (s.psw.a + 256 - r) % 256
      let psw2 := (((s.psw.setCarry (if s.psw.a < r then 1 else 0)).setParity
        acc).setZero acc).setSign acc
      .next (tick { s with psw := psw2, pc := (s.pc + 1) % 65536 }
        (if reg ≠ 6 then 4 else 7))
  | .Rlc =>
    let a := s.psw.a
    let acc := a * 2 % 256 + a / 128
    .next (tick { s with psw := ({ s.psw with a := acc }).setCarry (a / 128),
                         pc := (s.pc + 1) % 65536 } 4)
  | .Rrc =>
    let a := s.psw.a
    let acc := a / 2 + a % 2 * 128
    .next (tick { s with psw := ({ s.psw with a := acc }).setCarry (a &&& 1),
                         pc := (s.pc + 1) % 65536 } 4)
  | .Ral =>
    let a := s.psw.a
    let acc := a * 2 % 256 + s.psw.getCarry
    .next (tick { s with psw := ({ s.psw with a := acc }).setCarry (a &&& 0x80),
                         pc := (s.pc + 1) % 65536 } 4)
  | .Rar =>
    let a := s.psw.a
    let acc := a / 2 + s.psw.getCarry * 128
    .next (tick { s with psw := ({ s.psw with a := acc }).setCarry (a &&& 1),
                         pc := (s.pc + 1) % 65536 } 4)
  | .Push rp =>
    match getRegisterPair s rp with
    | .error f => .fatal f
    | .ok register_pair =>
      let sp1 := (s.sp + 65534) % 65536
      match memWrite16 s.mem sp1 register_pair with
      | .error f => .fatal f
      | .ok m =>
        .next (tick { s with sp := sp1, mem := m, pc := (s.pc + 1) % 65536 } 11)
  | .Pop rp =>
    match memRead16 s.mem s.sp with
    | .error f => .fatal f
    | .ok register_pair =>
      match setRegisterPair { s with sp := (s.sp + 2) % 65536 } rp register_pair with
      | .error f => .fatal f
      | .ok s1 => .next (tick { s1 with pc := (s1.pc + 1) % 65536 } 10)
  | .Dad rp =>
    match getRegisterPair s rp with
    | .error f => .fatal f
    | .ok register_pair =>
      let sum := s.hl.get + register_pair
      .next (tick { s with hl := RegisterPair.set (sum % 65536),
                           psw := s.psw.setCarry (if 65536 ≤ sum then 1 else 0),
                           pc := (s.pc + 1) % 65536 } 10)
  | .Inx rp =>
    match getRegisterPair s rp with
    | .error f => .fatal f
    | .ok register_pair =>
      match setRegisterPair s rp ((register_pair + 1) % 65536) with
      | .error f => .fatal f
      | .ok s1 => .next (tick { s1 with pc := (s1.pc + 1) % 65536 } 5)
  | .Dcx rp =>
    match getRegisterPair s rp with
    | .error f => .fatal f
    | .ok register_pair =>
      match setRegisterPair s rp ((register_pair + 65535) % 65536) with
      | .error f => .fatal f
      | .ok s1 => .next (tick { s1 with pc := (s1.pc + 1) % 65536 } 5)
  | .Xchg =>
    .next (tick { s with de := s.hl, hl := s.de, pc := (s.pc + 1) % 65536 } 4)
  | .Xthl =>
    match memRead16 s.mem s.sp with
    | .error f => .fatal f
    | .ok tmp =>
      match memWrite16 s.mem s.sp s.hl.get with
      | .error f => .fatal f
      | .ok m =>
        .next (tick { s with mem := m, hl := RegisterPair.set tmp,
                             pc := (s.pc + 1) % 65536 } 18)
  | .Sphl =>
    .next (tick { s with sp := s.hl.get, pc := (s.pc + 1) % 65536 } 5)
  | .Lxi rp data =>
    match setRegisterPair s rp data with
    | .error f => .fatal f
    | .ok s1 => .next (tick { s1 with pc := (s1.pc + 3) % 65536 } 10)
  | .Mvi reg data =>
    match setRegister s reg data with
    | .error f => .fatal f
    | .ok s1 =>
      .next (tick { s1 with pc := (s1.pc + 2) % 65536 } (if reg ≠ 6 then 7 else 10))
  | .Adi data =>
    let sum := s.psw.a + data
    let acc := sum % 256
    let psw2 := (((({ s.psw with a := acc }).setCarry
      (if 256 ≤ sum then 1 else 0)).setParity acc).setZero acc).setSign acc
    .next (tick { s with psw := psw2, pc := (s.pc + 2) % 65536 } 7)
  | .Aci data =>
    let sum := s.psw.a + data + (if s.psw.isCarrySet then 1 else 0)
    let acc := sum % 256
    let psw2 := (((({ s.psw with a := acc }).setCarry
      (if 256 ≤ sum then 1 else 0)).setParity acc).setZero acc).setSign acc
    .next (tick { s with psw := psw2, pc := (s.pc + 2) % 65536 } 7)
  | .Sui data =>
    let acc := (s.psw.a + 256 - data) % 256
    let psw2 := (((({ s.psw with a := acc }).setCarry
      (if s.psw.a < data then 1 else 0)).setParity acc).setZero acc).setSign acc
    .next (tick { s with psw := psw2, pc := (s.pc + 2) % 65536 } 7)
  | .Sbi data =>
    let borrow := data + (if s.psw.isCarrySet then 1 else 0)
    let acc := (s.psw.a + 512 - borrow) % 256
    let psw2 := (((({ s.psw with a := acc }).setCarry
      (if s.psw.a < borrow then 1 else 0)).setParity acc).setZero acc).setSign acc
    .next (tick { s with psw := psw2, pc := (s.pc + 2) % 65536 } 7)
  | .Ani data =>
    let acc := s.psw.a &&& data
    let psw2 := (((({ s.psw with a := acc }).setCarry 0).setParity
      acc).setZero acc).setSign acc
    .next (tick { s with psw := psw2, pc := (s.pc + 2) % 65536 } 7)
  | .Xri data =>
    let acc := s.psw.a ^^^ data
    let psw2 := (((({ s.psw with a := acc }).setCarry 0).setParity
      acc).setZero acc).setSign acc
    .next (tick { s with psw := psw2, pc := (s.pc + 2) % 65536 } 7)
  | .Ori data =>
    let acc := s.psw.a ||| data
    let psw2 := (((({ s.psw with a := acc }).setCarry 0).setParity
      acc).setZero acc).setSign acc
    .next (tick { s with psw := psw2, pc := (s.pc + 2) % 65536 } 7)
  | .Cpi data =>
    let acc := (s.psw.a + 256 - data) % 256
    let psw2 := (((s.psw.setCarry (if s.psw.a < data then 1 else 0)).setParity
      acc).setZero acc).setSign acc
    .next (tick { s with psw := psw2, pc := (s.pc + 2) % 65536 } 7)
  | .Sta exp =>
    match memWrite8 s.mem exp s.psw.a with
    | .error f => .fatal f
    | .ok m => .next (tick { s with mem := m, pc := (s.pc + 3) % 65536 } 13)
  | .Lda exp =>
    match memRead8 s.mem exp with
    | .error f => .fatal f
    | .ok v =>
      .next (tick { s with psw := { s.psw with a := v },
                           pc := (s.pc + 3) % 65536 } 13)
  | .Shld exp =>
    match memWrite16 s.mem exp s.hl.get with
    | .error f => .fatal f
    | .ok m => .next (tick { s with mem := m, pc := (s.pc + 3) % 65536 } 16)
  | .Lhld exp =>
    match memRead16 s.mem exp with
    | .error f => .fatal f
    | .ok v =>
      .next (tick { s with hl := RegisterPair.set v, pc := (s.pc + 3) % 65536 } 16)
  | .Pchl => .next (tick { s with pc := s.hl.get } 5)
  | .Jmp exp => .next (tick { s with pc := exp } 10)
  | .Jc exp =>
    .next (tick { s with pc := if s.psw.isCarrySet then exp else (s.pc + 3) % 65536 } 10)
  | .Jnc exp =>
    .next (tick { s with pc := if ¬s.psw.isCarrySet then exp else (s.pc + 3) % 65536 } 10)
  | .Jz exp =>
    .next (tick { s with pc := if s.psw.isZeroSet then exp else (s.pc + 3) % 65536 } 10)
  | .Jnz exp =>
    .next (tick { s with pc := if ¬s.psw.isZeroSet then exp else (s.pc + 3) % 65536 } 10)
  | .Jm exp =>
    .next (tick { s with pc := if s.psw.isSignSet then exp else (s.pc + 3) % 65536 } 10)
  | .Jp exp =>
    .next (tick { s with pc := if ¬s.psw.isSignSet then exp else (s.pc + 3) % 65536 } 10)
  | .Jpe exp =>
    .next (tick { s with pc := if s.psw.isParitySet then exp else (s.pc + 3) % 65536 } 10)
  | .Jpo exp =>
    .next (tick { s with pc := if ¬s.psw.isParitySet then exp else (s.pc + 3) % 65536 } 10)
  | .Call sub =>
    let pc1 := (s.pc + 3) % 65536
    let sp1 := (s.sp + 65534) % 65536
    match memWrite16 s.mem sp1 pc1 with
    | .error f => .fatal f
    | .ok m => .next (tick { s with pc := sub, sp := sp1, mem := m } 17)
  | .Cc sub =>
    let pc1 := (s.pc + 3) % 65536
    if s.psw.isCarrySet then
      let sp1 := (s.sp + 65534) % 65536
      match memWrite16 s.mem sp1 pc1 with
      | .error f => .fatal f
      | .ok m => .next (tick { s with pc := sub, sp := sp1, mem := m } 17)
    else .next (tick { s with pc := pc1 } 11)
  | .Cnc sub =>
    let pc1 := (s.pc + 3) % 65536
    if ¬s.psw.isCarrySet then
      let sp1 := (s.sp + 65534) % 65536
      match memWrite16 s.mem sp1 pc1 with
      | .error f => .fatal f
      | .ok m => .next (tick { s with pc := sub, sp := sp1, mem := m } 17)
    else .next (tick { s with pc := pc1 } 11)
  | .Cz sub =>
    let pc1 := (s.pc + 3) % 65536
    if s.psw.isZeroSet then
      let sp1 := (s.sp + 65534) % 65536
      match memWrite16 s.mem sp1 pc1 with
      | .error f => .fatal f
      | .ok m => .next (tick { s with pc := sub, sp := sp1, mem := m } 17)
    else .next (tick { s with pc := pc1 } 11)
  | .Cnz sub =>
    let pc1 := (s.pc + 3) % 65536
    if ¬s.psw.isZeroSet then
      let sp1 := (s.sp + 65534) % 65536
      match memWrite16 s.mem sp1 pc1 with
      | .error f => .fatal f
      | .ok m => .next (tick { s with pc := sub, sp := sp1, mem := m } 17)
    else .next (tick { s with pc := pc1 } 11)
  | .Cm sub =>
    let pc1 := (s.pc + 3) % 65536
    if s.psw.isSignSet then
      let sp1 := (s.sp + 65534) % 65536
      match memWrite16 s.mem sp1 pc1 with
      | .error f => .fatal f
      | .ok m => .next (tick { s with pc := sub, sp := sp1, mem := m } 17)
    else .next (tick { s with pc := pc1 } 11)
  | .Cp sub =>
    let pc1 := (s.pc + 3) % 65536
    if ¬s.psw.isSignSet then
      let sp1 := (s.sp + 65534) % 65536
      match memWrite16 s.mem sp1 pc1 with
      | .error f => .fatal f
      | .ok m => .next (tick { s with pc := sub, sp := sp1, mem := m } 17)
    else .next (tick { s with pc := pc1 } 11)
  | .Cpe sub =>
    let pc1 := (s.pc + 3) % 65536
    if s.psw.isParitySet then
      let sp1 := (s.sp + 65534) % 65536
      match memWrite16 s.mem sp1 pc1 with
      | .error f => .fatal f
      | .ok m => .next (tick { s with pc := sub, sp := sp1, mem := m } 17)
    else .next (tick { s with pc := pc1 } 11)
  | .Cpo sub =>
    let pc1 := (s.pc + 3) % 65536
    if ¬s.psw.isParitySet then
      let sp1 := (s.sp + 65534) % 65536
      match memWrite16 s.mem sp1 pc1 with
      | .error f => .fatal f
      | .ok m => .next (tick { s with pc := sub, sp := sp1, mem := m } 17)
    else .next (tick { s with pc := pc1 } 11)
  | .Ret =>
    match memRead16 s.mem s.sp with
    | .error f => .fatal f
    | .ok v => .next (tick { s with pc := v, sp := (s.sp + 2) % 65536 } 10)
  | .Rc =>
    if s.psw.isCarrySet then
      match memRead16 s.mem s.sp with
      | .error f => .fatal f
      | .ok v => .next (tick { s with pc := v, sp := (s.sp + 2) % 65536 } 11)
    else .next (tick { s with pc := (s.pc + 1) % 65536 } 5)
  | .Rnc =>
    if ¬s.psw.isCarrySet then
      match memRead16 s.mem s.sp with
      | .error f => .fatal f
      | .ok v => .next (tick { s with pc := v, sp := (s.sp + 2) % 65536 } 11)
    else .next (tick { s with pc := (s.pc + 1) % 65536 } 5)
  | .Rz =>
    if s.psw.isZeroSet then
      match memRead16 s.mem s.sp with
      | .error f => .fatal f
      | .ok v => .next (tick { s with pc := v, sp := (s.sp + 2) % 65536 } 11)
    else .next (tick { s with pc := (s.pc + 1) % 65536 } 5)
  | .Rnz =>
    if ¬s.psw.isZeroSet then
      match memRead16 s.mem s.sp with
      | .error f => .fatal f
      | .ok v => .next (tick { s with pc := v, sp := (s.sp + 2) % 65536 } 11)
    else .next (tick { s with pc := (s.pc + 1) % 65536 } 5)
  | .Rm =>
    if s.psw.isSignSet then
      match memRead16 s.mem s.sp with
      | .error f => .fatal f
      | .ok v => .next (tick { s with pc := v, sp := (s.sp + 2) % 65536 } 11)
    else .next (tick { s with pc := (s.pc + 1) % 65536 } 5)
  | .Rp =>
    if ¬s.psw.isSignSet then
      match memRead16 s.mem s.sp with
      | .error f => .fatal f
      | .ok v => .next (tick { s with pc := v, sp := (s.sp + 2) % 65536 } 11)
    else .next (tick { s with pc := (s.pc + 1) % 65536 } 5)
  | .Rpe =>
    if s.psw.isParitySet then
      match memRead16 s.mem s.sp with
      | .error f => .fatal f
      | .ok v => .next (tick { s with pc := v, sp := (s.sp + 2) % 65536 } 11)
    else .next (tick { s with pc := (s.pc + 1) % 65536 } 5)
  | .Rpo =>
    if ¬s.psw.isParitySet then
      match memRead16 s.mem s.sp with
      | .error f => .fatal f
      | .ok v => .next (tick { s with pc := v, sp := (s.sp + 2) % 65536 } 11)
    else .next (tick { s with pc := (s.pc + 1) % 65536 } 5)
  | .Rst exp =>
    let sp1 := (s.sp + 65534) % 65536
    match memWrite16 s.mem sp1 s.pc with
    | .error f => .fatal f
    | .ok m =>
      -- `u16::from(exp * 8)`: the multiply happens in u8
      .next (tick { s with sp := sp1, mem := m, pc := exp * 8 % 256 } 11)
  | .Ei => .next (tick { s with inte := true, pc := (s.pc + 1) % 65536 } 4)
  | .Di => .next (tick { s with inte := false, pc := (s.pc + 1) % 65536 } 4)
  | .In exp =>
    match s.ports.read exp with
    | .error f => .fatal f
    | .ok v =>
      .next (tick { s with psw := { s.psw with a := v },
                           pc := (s.pc + 2) % 65536 } 10)
  | .Out exp =>
    match s.ports.write exp s.psw.a with
    | .error f => .fatal f
    | .ok p => .next (tick { s with ports := p, pc := (s.pc + 2) % 65536 } 10)
  | .Hlt => .halted s

/-- One iteration of the `Emulator::run` loop: fetch three bytes at PC
(slice indexing, so `pc + 3` must lie inside the image), poll the interrupt
scheduler over the fetched opcode, decode, execute. -/
def step (s : EmuState) : StepResult :=
  if s.pc + 3 ≤ CAP then
    let b1 := s.mem (s.pc + 1)
    let b2 := s.mem (s.pc + 2)
    let checked := interruptCheck s (s.mem s.pc)
    match decode [checked.1, b1, b2] with
    | .fatal f => .fatal f
    | .ok instr => execInstr checked.2 instr
  else .fatal .memOutOfRange

/-- Result of `Emulator::run`.  `ok` is the `Ok(())` return after HLT;
`err` is the `Result::Err` branch of run's signature, which no reachable
code constructs (the decoder's `?` path is dead); `fatal` is a panic;
`outOfFuel` means the loop was still running after the given number of
iterations. -/
inductive RunResult where
  | ok (s : EmuState)
  | err (f : Failure)
  | fatal (f : Failure)
  | outOfFuel (s : EmuState)

/-- The `Emulator::run` loop, bounded by fuel (one unit per iteration). -/
def run (fuel : Nat) (s : EmuState) : RunResult :=
  match fuel with
  | 0 => .outOfFuel s
  | fuel + 1 =>
    match step s with
    | .halted s1 => .ok s1
    | .fatal f => .fatal f
    | .next s1 => run fuel s1

/-- Cycle counter of a continuing or halted step, `none` on a panic. -/
def StepResult.cyclesOf : StepResult → Option Nat
  | .next s => some s.cycles
  | .halted s => some s.cycles
  | .fatal _ => none

/-- The state a continuing step produced, if any. -/
def StepResult.nextState : StepResult → Option EmuState
  | .next s => some s
  | _ => none

/-- Flags byte after a continuing step, if any. -/
def StepResult.flagsOf : StepResult → Option Nat
  | .next s => some s.psw.flags
  | .halted s => some s.psw.flags
  | .fatal _ => none

/-- Final program counter of a normally terminated run. -/
def RunResult.finalPC : RunResult → Option Nat
  | .ok s => some s.pc
  | _ => none

/-- Final accumulator of a normally terminated run. -/
def RunResult.finalA : RunResult → Option Nat
  | .ok s => some s.psw.a
  | _ => none

/-- Total cycles reported to the scheduler over a normally terminated run. -/
def RunResult.finalCycles : RunResult → Option Nat
  | .ok s => some s.cycles
  | _ => none

/-- Whether `run` returned `Ok(())`. -/
def RunResult.halts : RunResult → Bool
  | .ok _ => true
  | _ => false

/-- The panic a run died on, if any. -/
def RunResult.panic : RunResult → Option Failure
  | .fatal f => some f
  | _ => none

/-- `Emulator::new` followed by `load_rom` of the given image. -/
def loadRom (rom : List Nat) : EmuState :=
  { initState with mem := memOfRom rom }

/-- Whether an `Except Failure` result is a success. -/
def isOkE {α : Type} : Except Failure α → Bool
  | .ok _ => true
  | .error _ => false

/-- Scenario image for the first end-to-end spec scenario:
MVI A,0x42; JMP 0x0005; NOP; HLT. -/
def c6Init : EmuState := loadRom [0x3e, 0x42, 0xc3, 0x05, 0x00, 0x00, 0x76]

/-- A fresh machine with a pending interrupt and interrupts enabled. -/
def pendState : EmuState :=
  { initState with inte := true,
                   timers := { InterruptTimers.new with interrupt := true } }

/-- A fresh machine with SP placed in work RAM at 0x1000 (memory zeroed). -/
def c7s : EmuState := { initState with sp := 0x1000 }

/-- A fresh machine with SP at 0x2400 and BC holding 0x1234. -/
def c8s0 : EmuState := { initState with sp := 0x2400, bc := ⟨0x12, 0x34⟩ }

/-- State after PUSH B from `c8s0`. -/
def c8s1 : EmuState := ((execInstr c8s0 (.Push 0)).nextState).getD initState

/-- State after PUSH B then POP B from `c8s0`. -/
def c8s2 : EmuState := ((execInstr c8s1 (.Pop 0)).nextState).getD initState

/-- Unwrap an `Except` success, with a default for the error case (proof
plumbing for concrete witnesses only). -/
def exGetD {α : Type} (x : Except Failure α) (dflt : α) : α :=
  match x with
  | .ok a => a
  | .error _ => dflt

/-- Port state after feeding 0xAA to port 4 of a fresh port bank. -/
def c9p1 : IOPorts := exGetD (IOPorts.new.write 4 0xaa) IOPorts.new

/-- Port state after additionally feeding 0x5B to port 4. -/
def c9p2 : IOPorts := exGetD (c9p1.write 4 0x5b) IOPorts.new

/-- Port state after additionally writing shift amount 3 to port 2. -/
def c9p3 : IOPorts := exGetD (c9p2.write 2 3) IOPorts.new

/-- State after INX B on a fresh machine. -/
def c10s1 : EmuState := ((execInstr initState (.Inx 0)).nextState).getD initState

theorem timerAdd_cycles_lt (t : InterruptTimer) (d : Nat) :
    (t.add d).cycles < 33334 := by
  unfold InterruptTimer.add
  dsimp only
  split <;> simp <;> omega

theorem timerAdd_interrupt_iff (t : InterruptTimer) (d : Nat) :
    (t.add d).interrupt = true ↔
      (t.interrupt = true ∨ 33334 ≤ (t.cycles + d) % 65536) := by
  unfold InterruptTimer.add
  dsimp only
  split <;> rename_i h <;> simp [h]

/-- Claim C4, counterexample to "exactly one source triggers per step": from
the initial scheduler state, a single accumulate step of 33,334 cycles makes
BOTH sources cross the period boundary — source 1 goes 16667 → 50001 ≥ 33334
and source 2 goes 0 → 33334 ≥ 33334 — so two sources, not exactly one,
trigger in that step, and the aggregate keeps the later number 2. -/
theorem c4_counterexample :
    (InterruptTimers.new.timer1.add 33334).interrupt = true ∧
    (InterruptTimers.new.timer2.add 33334).interrupt = true ∧
    (InterruptTimers.new.add 33334).number = 2 ∧
    (InterruptTimers.new.add 33334).timer1.cycles = 16667 ∧
    (InterruptTimers.new.add 33334).timer2.cycles = 0 := by
  decide

/-- Claim C4, amended: in a single accumulate step a source triggers exactly
when its wrapped accumulated value reaches the 33,334-cycle period (so zero,
one, or both of the two sources may trigger in one step), and after the step
each source's accumulator is strictly below 33,334. -/
theorem c4_accumulator_step (t : InterruptTimer) (ts : InterruptTimers) (d : Nat) :
    (t.add d).cycles < 33334 ∧
    ((t.add d).interrupt = true ↔
      (t.interrupt = true ∨ 33334 ≤ (t.cycles + d) % 65536)) ∧
    (ts.add d).timer1.cycles < 33334 ∧
    (ts.add d).timer2.cycles < 33334 := by
  refine ⟨timerAdd_cycles_lt t d, timerAdd_interrupt_iff t d, ?_, ?_⟩ <;>
    · unfold InterruptTimers.add
      dsimp only
      split <;> split <;> simp <;> exact timerAdd_cycles_lt _ d

/-- Claim C1, counterexample: the memory operations do NOT reduce addresses
modulo the capacity and are not total over 0..=0xFFFF — reading one byte at
address 0x5000 is an out-of-range slice panic, and PUSH with SP=0x0000 wraps
SP to 0xFFFE but then panics on the store at 0xFFFE/0xFFFF instead of
storing there. -/
theorem c1_counterexample :
    memRead8 (memOfRom []) 0x5000 = .error .memOutOfRange ∧
    execInstr { initState with sp := 0 } (.Push 0) = .fatal .memOutOfRange := by
  constructor <;> rfl

/-- Claim C1, amended: every memory read/write succeeds exactly when the
addressed range lies inside the 0x5000-byte image (`address + length ≤
0x5000`); there is no reduction modulo the capacity, addresses beyond the
image are out-of-range panics, and executing PUSH with SP=0x0000 wraps SP
to 0xFFFE but dies on the out-of-range store rather than storing at
0xFFFE/0xFFFF. -/
theorem c1_memory_bounds (m : Memory) (a v : Nat) (s : EmuState) :
    (isOkE (memRead8 m a) = true ↔ a + 1 ≤ 0x5000) ∧
    (isOkE (memRead16 m a) = true ↔ a + 2 ≤ 0x5000) ∧
    (isOkE (memWrite8 m a v) = true ↔ a + 1 ≤ 0x5000) ∧
    (isOkE (memWrite16 m a v) = true ↔ a + 2 ≤ 0x5000) ∧
    execInstr { s with sp := 0 } (.Push 0) = .fatal .memOutOfRange := by
  refine ⟨?_, ?_, ?_, ?_, ?_⟩
  · unfold memRead8 CAP
    split <;> rename_i h <;> simp [isOkE, h]
  · unfold memRead16 CAP
    split <;> rename_i h <;> simp [isOkE, h]
  · unfold memWrite8 CAP
    split <;> rename_i h <;> simp [isOkE, h]
  · unfold memWrite16 CAP
    split <;> rename_i h <;> simp [isOkE, h]
  · delta execInstr
    dsimp only [getRegisterPair]
    norm_num [memWrite16, CAP]

/-- Claim C2, counterexample: executing MOV B,C (both register codes non-M)
reports a cycle delta of 5, not 4, to the interrupt scheduler. -/
theorem c2_counterexample :
    (execInstr initState (.Mov 0 1)).cyclesOf ≠ some (initState.cycles + 4) := by
  decide

/-- Claim C2, amended: every executed MOV in which neither the source nor
the destination register code is M (0b110) reports a cycle delta of exactly
5 to the interrupt scheduler (the emulator charges 5, the spec's table says
4). -/
theorem c2_mov_cycles (s : EmuState) (dst src : Nat) (hd : dst < 8)
    (hs : src < 8) (hd6 : dst ≠ 6) (hs6 : src ≠ 6) :
    (execInstr s (.Mov dst src)).cyclesOf = some (s.cycles + 5) := by
  interval_cases dst <;> interval_cases src <;>
    first
      | exact absurd rfl hd6
      | exact absurd rfl hs6
      | (delta execInstr
         simp [getRegister, setRegister, tick, StepResult.cyclesOf])

/-- Witness for C2 at MOV B,C on a fresh machine. -/
theorem c2_witness : (execInstr initState (.Mov 0 1)).cyclesOf = some 5 := by
  have h := c2_mov_cycles initState 0 1 (by norm_num) (by norm_num)
    (by norm_num) (by norm_num)
  simpa [initState] using h

/-- Claim C3: at the top of a run-loop iteration with the scheduler's
pending flag set, (a) if the interrupt-enable latch is set the fetched
opcode byte is replaced by `0b11000111 | (number << 3)` and both the enable
latch and the pending flag are cleared, and (b) if the enable latch is
clear the pending flag is cleared while the opcode and the rest of the
state are untouched — so an interrupt that fired while interrupts were
disabled is dropped and can never be delivered later. -/
theorem c3_interrupt_poll (s : EmuState) (opcode : Nat)
    (hp : s.timers.interrupt = true) :
    (s.inte = true →
      interruptCheck s opcode =
        (0b11000111 ||| (s.timers.number <<< 3),
         { s with inte := false,
                  timers := { s.timers with interrupt := false } })) ∧
    (s.inte = false →
      interruptCheck s opcode =
        (opcode, { s with timers := { s.timers with interrupt := false } })) := by
  constructor <;> intro he <;> simp [interruptCheck, hp, he]

/-- Witness for C3: a fresh machine with a pending interrupt and the enable
latch set synthesizes RST 0 (opcode 0xC7) and clears both bits. -/
theorem c3_witness :
    (interruptCheck pendState 0x3e).1 = 0xc7 ∧
    (interruptCheck pendState 0x3e).2.inte = false ∧
    (interruptCheck pendState 0x3e).2.timers.interrupt = false := by
  have h := (c3_interrupt_poll pendState 0x3e rfl).1 rfl
  rw [h]
  exact ⟨by decide, rfl, rfl⟩

/-- Claim C5, counterexample: running a program whose first opcode byte is
the undefined 0x08 dies on the decoder's `panic!("invalid opcode")` — a
process abort (`fatal`), not a returned failure value (`err`) of `run`. -/
theorem c5_counterexample :
    run 1 (loadRom [0x08]) = .fatal (.invalidOpcode 0x08) := by
  rfl

/-- Claim C5, amended: an opcode byte with no defined mapping, and IN or OUT
on an undefined port number, each abort the process with a panic; none of
them is surfaced from `run` as a returned failure value (the decoder's
returned-error path is dead code, so `run` can only return normally, panic,
or loop). -/
theorem c5_failure_modes :
    run 1 (loadRom [0x08]) = .fatal (.invalidOpcode 0x08) ∧
    run 1 (loadRom [0xdb, 0x07]) = .fatal (.invalidReadPort 0x07) ∧
    run 1 (loadRom [0xd3, 0x07]) = .fatal (.invalidWritePort 0x07) ∧
    decode [] = .fatal .indexPanic := by
  exact ⟨rfl, rfl, rfl, rfl⟩

/-- Claim C6, counterexample: the scenario image `3E 42 C3 05 00 00 76`
does not end with PC=0x0007 and 28 reported cycles — HLT returns without
advancing PC past the HLT byte and without reporting its 7 cycles. -/
theorem c6_counterexample :
    (run 10 c6Init).finalPC ≠ some 0x0007 ∧
    (run 10 c6Init).finalCycles ≠ some 28 := by
  decide

/-- Claim C6, amended: running `3E 42 C3 05 00 00 76` from PC=0 executes
MVI A,0x42; JMP 0x0005; NOP; HLT and terminates normally with A=0x42,
final PC=0x0006 (the address of the HLT opcode), and 21 total cycles
(7+10+4) reported to the scheduler — HLT neither advances PC nor reports
cycles. -/
theorem c6_scenario :
    (run 10 c6Init).halts = true ∧
    (run 10 c6Init).finalPC = some 0x0006 ∧
    (run 10 c6Init).finalA = some 0x42 ∧
    (run 10 c6Init).finalCycles = some 21 := by
  decide

set_option maxRecDepth 8192 in
theorem flagBit1_masks (f : Nat) (hf : f < 256) :
    (f ||| 1) &&& 2 = f &&& 2 ∧ (f &&& (255 ^^^ 1)) &&& 2 = f &&& 2 ∧
    (f ||| 4) &&& 2 = f &&& 2 ∧ (f &&& (255 ^^^ 4)) &&& 2 = f &&& 2 ∧
    (f ||| 64) &&& 2 = f &&& 2 ∧ (f &&& (255 ^^^ 64)) &&& 2 = f &&& 2 ∧
    (f ||| 128) &&& 2 = f &&& 2 ∧ (f &&& (255 ^^^ 128)) &&& 2 = f &&& 2 := by
  revert hf
  revert f
  decide

/-- Claim C7, counterexample: bit 1 of the flags byte is NOT preserved by
every core operation — on a fresh machine (flags byte 0b00000010) with
SP=0x1000 over zeroed memory, POP of the PSW pair copies the stack's high
byte 0x00 wholesale into the flags byte, clearing bit 1. -/
theorem c7_counterexample :
    c7s.psw.flags = 0b00000010 ∧
    (execInstr c7s (.Pop 4)).flagsOf = some 0 := by
  decide

/-- Claim C7, amended: the four flag setters (`set_carry`/`set_parity`/
`set_zero`/`set_sign`) each write only their own named bit, so every flag
update that goes through them preserves the reserved bit 1 that
initialization set; but `ProgramStateWord::set` — used by POP of the PSW
pair — replaces the whole flags byte with the popped high byte, so bit 1 is
not preserved there. -/
theorem c7_flag_bit1 (p : ProgramStateWord) (v : Nat) (hf : p.flags < 256) :
    ((p.setCarry v).flags &&& 2 = p.flags &&& 2 ∧
     (p.setParity v).flags &&& 2 = p.flags &&& 2 ∧
     (p.setZero v).flags &&& 2 = p.flags &&& 2 ∧
     (p.setSign v).flags &&& 2 = p.flags &&& 2) ∧
    (ProgramStateWord.set v).flags = v / 256 % 256 := by
  have h := flagBit1_masks p.flags hf
  refine ⟨⟨?_, ?_, ?_, ?_⟩, rfl⟩ <;>
    · simp only [ProgramStateWord.setCarry, ProgramStateWord.setParity,
        ProgramStateWord.setZero, ProgramStateWord.setSign,
        ProgramStateWord.setFlag, CondFlag.toNat]
      split <;>
        first
          | exact h.1
          | exact h.2.1
          | exact h.2.2.1
          | exact h.2.2.2.1
          | exact h.2.2.2.2.1
          | exact h.2.2.2.2.2.1
          | exact h.2.2.2.2.2.2.1
          | exact h.2.2.2.2.2.2.2

/-- Witness for C7: the carry setter on the fresh PSW leaves bit 1 alone. -/
theorem c7_witness :
    (ProgramStateWord.new.setCarry 1).flags &&& 2 = ProgramStateWord.new.flags &&& 2 := by
  exact (c7_flag_bit1 ProgramStateWord.new 1 (by decide)).1.1

/-- Claim C9: writing byte x then byte y to port 4 leaves the shift
register holding `(y << 8) | x` (here `y * 256 + x`), and after writing s
to port 2 (only the low 3 bits are kept as the shift amount), reading
port 3 returns the low 8 bits of `((y << 8) | x) >> (8 - (s & 0b111))`. -/
theorem c9_shift_register (p p1 p2 p3 : IOPorts) (x y s : Nat)
    (hx : x < 256) (hy : y < 256) (hsr : p.shift_register < 65536)
    (h1 : p.write 4 x = .ok p1) (h2 : p1.write 4 y = .ok p2)
    (h3 : p2.write 2 s = .ok p3) :
    p3.shift_register = y * 256 + x ∧
    p3.read 3 = .ok ((y * 256 + x) / 2 ^ (8 - s % 8) % 256) := by
  simp only [IOPorts.write] at h1 h2 h3
  injection h1 with h1
  injection h2 with h2
  injection h3 with h3
  have e1 : p1.shift_register = p.shift_register / 256 + x % 256 * 256 := by
    rw [← h1]
  have e2 : p2.shift_register = p1.shift_register / 256 + y % 256 * 256 := by
    rw [← h2]
  have e3sr : p3.shift_register = p2.shift_register := by
    rw [← h3]
  have e3sa : p3.shift_amount = s % 8 := by
    rw [← h3]
  have hkey : p3.shift_register = y * 256 + x := by
    rw [e3sr, e2, e1]
    omega
  refine ⟨hkey, ?_⟩
  simp only [IOPorts.read, hkey, e3sa]

/-- Witness for C9: feeding 0xAA then 0x5B through port 4 with shift
amount 3 makes the register 0x5BAA and port 3 read 0xDD. -/
theorem c9_witness :
    c9p3.shift_register = 0x5baa ∧ c9p3.read 3 = .ok 0xdd := by
  have h := c9_shift_register IOPorts.new c9p1 c9p2 c9p3 0xaa 0x5b 3
    (by decide) (by decide) (by decide) rfl rfl rfl
  exact ⟨h.1, by rw [h.2]; norm_num⟩

theorem execInstr_inx (s : EmuState) (rp : Nat) :
    execInstr s (.Inx rp) =
      match getRegisterPair s rp with
      | .error f => .fatal f
      | .ok register_pair =>
        match setRegisterPair s rp ((register_pair + 1) % 65536) with
        | .error f => .fatal f
        | .ok s1 => .next (tick { s1 with pc := (s1.pc + 1) % 65536 } 5) := by
  rfl

theorem execInstr_dcx (s : EmuState) (rp : Nat) :
    execInstr s (.Dcx rp) =
      match getRegisterPair s rp with
      | .error f => .fatal f
      | .ok register_pair =>
        match setRegisterPair s rp ((register_pair + 65535) % 65536) with
        | .error f => .fatal f
        | .ok s1 => .next (tick { s1 with pc := (s1.pc + 1) % 65536 } 5) := by
  rfl

/-- Claim C10: for every register-pair code INX and DCX can carry (0..3,
i.e. BC, DE, HL, SP), executing the instruction leaves the PSW — hence all
four condition flags — untouched, as well as memory, ports, the
interrupt-enable latch, and every register pair other than the selected
one; only the selected pair, the program counter (+1, wrapping) and the
cycle count (+5) change. -/
theorem c10_inx_dcx_frame (s : EmuState) (rp : Nat) (s' : EmuState)
    (hrp : rp < 4)
    (h : (execInstr s (.Inx rp)).nextState = some s' ∨
         (execInstr s (.Dcx rp)).nextState = some s') :
    s'.psw = s.psw ∧ s'.inte = s.inte ∧ s'.mem = s.mem ∧ s'.ports = s.ports ∧
    s'.pc = (s.pc + 1) % 65536 ∧ s'.cycles = s.cycles + 5 ∧
    (rp ≠ 0 → s'.bc = s.bc) ∧ (rp ≠ 1 → s'.de = s.de) ∧
    (rp ≠ 2 → s'.hl = s.hl) ∧ (rp ≠ 3 → s'.sp = s.sp) := by
  have hcase : rp = 0 ∨ rp = 1 ∨ rp = 2 ∨ rp = 3 := by omega
  rcases hcase with rfl | rfl | rfl | rfl <;> rcases h with h | h <;>
    · simp only [execInstr_inx, execInstr_dcx, getRegisterPair,
        setRegisterPair, tick, StepResult.nextState, Option.some.injEq] at h
      subst h
      refine ⟨rfl, rfl, rfl, rfl, rfl, rfl, ?_, ?_, ?_, ?_⟩ <;>
        intro h2 <;>
        first
          | exact absurd rfl h2
          | rfl

/-- Witness for C10: INX B on a fresh machine preserves the PSW, memory,
ports and the other pairs. -/
theorem c10_witness :
    c10s1.psw = initState.psw ∧ c10s1.mem = initState.mem ∧
    c10s1.hl = initState.hl := by
  have h := c10_inx_dcx_frame initState 0 c10s1 (by norm_num) (Or.inl rfl)
  exact ⟨h.1, h.2.2.1, h.2.2.2.2.2.2.2.2.1 (by norm_num)⟩

theorem execInstr_push (s : EmuState) (rp : Nat) :
    execInstr s (.Push rp) =
      match getRegisterPair s rp with
      | .error f => .fatal f
      | .ok register_pair =>
        let sp1 := (s.sp + 65534) % 65536
        match memWrite16 s.mem sp1 register_pair with
        | .error f => .fatal f
        | .ok m =>
          .next (tick { s with sp := sp1, mem := m, pc := (s.pc + 1) % 65536 } 11) := by
  rfl

theorem execInstr_pop (s : EmuState) (rp : Nat) :
    execInstr s (.Pop rp) =
      match memRead16 s.mem s.sp with
      | .error f => .fatal f
      | .ok register_pair =>
        match setRegisterPair { s with sp := (s.sp + 2) % 65536 } rp register_pair with
        | .error f => .fatal f
        | .ok s1 => .next (tick { s1 with pc := (s1.pc + 1) % 65536 } 10) := by
  rfl


/-- Claim C8: for every 16-bit value v held in a register pair of the
PUSH/POP family (codes 0,1,2 for BC,DE,HL and 4 for PSW) and every starting
SP whose two-byte push/pop slot lies inside the memory image, executing
PUSH of that pair and then POP of the same pair yields v back in the pair,
restores SP to its starting value, and leaves memory unchanged outside the
two-byte slot at SP-2/SP-1. -/
theorem c8_push_pop (s s1 s2 : EmuState) (rp v : Nat)
    (hrp : rp = 0 ∨ rp = 1 ∨ rp = 2 ∨ rp = 4)
    (hv : v < 65536) (hsp2 : 2 ≤ s.sp) (hspCap : s.sp ≤ 0x5000)
    (hget : getRegisterPair s rp = .ok v)
    (h1 : (execInstr s (.Push rp)).nextState = some s1)
    (h2 : (execInstr s1 (.Pop rp)).nextState = some s2) :
    getRegisterPair s2 rp = .ok v ∧ s2.sp = s.sp ∧
    ∀ i, i ≠ s.sp - 2 → i ≠ s.sp - 1 → s2.mem i = s.mem i := by
  have hA : (s.sp + 65534) % 65536 = s.sp - 2 := by omega
  have hB : s.sp - 2 + 2 ≤ CAP := by simp only [CAP]; omega
  have hC : (s.sp - 2 + 2) % 65536 = s.sp := by omega
  have hD : s.sp - 2 + 1 = s.sp - 1 := by omega
  have hne : s.sp - 2 + 1 ≠ s.sp - 2 := by omega
  have hread : memRead16 (fun i => if i = s.sp - 2 then v % 256
      else if i = s.sp - 2 + 1 then v / 256 % 256 else s.mem i) (s.sp - 2) =
      .ok v := by
    simp only [memRead16, if_pos hB]
    simp [hne]
    omega
  rcases hrp with rfl | rfl | rfl | rfl <;>
    · injection hget with hget
      rw [execInstr_push] at h1
      simp only [getRegisterPair] at h1
      rw [hget] at h1
      rw [hA] at h1
      simp only [memWrite16, if_pos hB] at h1
      simp only [StepResult.nextState, tick, Option.some.injEq] at h1
      subst h1
      rw [execInstr_pop] at h2
      dsimp only at h2
      rw [hread] at h2
      rw [hC] at h2
      simp only [setRegisterPair] at h2
      simp only [StepResult.nextState, tick, Option.some.injEq] at h2
      subst h2
      refine ⟨?_, rfl, ?_⟩
      · simp only [getRegisterPair, Except.ok.injEq, RegisterPair.get,
          RegisterPair.set, ProgramStateWord.get, ProgramStateWord.set]
        omega
      · intro i hi1 hi2
        dsimp only
        rw [if_neg hi1, hD, if_neg hi2]

/-- Witness for C8: PUSH B then POP B with BC=0x1234 and SP=0x2400 returns
0x1234 to BC and restores SP. -/
theorem c8_witness :
    getRegisterPair c8s2 0 = .ok 0x1234 ∧ c8s2.sp = 0x2400 := by
  have h := c8_push_pop c8s0 c8s1 c8s2 0 0x1234 (Or.inl rfl) (by norm_num)
    (by decide) (by decide) rfl rfl rfl
  exact ⟨h.1, h.2.1⟩
